import Mathlib

/-!
Verification of the lead-dispatch system (`lead_dispatch_system.py`).

Shallow embedding conventions:
* SQLite REAL columns that only ever hold finite values entered from text
  (coordinates, ratings, prices) are modelled as `ℚ`; the float infinity
  produced by `haversine_distance` and the `float('inf')` initial best
  distance in `JobMatcher.find_best_worker` are modelled with `EReal`.
* Nullable columns are `Option`; Python truthiness of a float column
  (`None` and `0.0` are falsy) is `truthyQ`.
* ISO-8601 timestamp strings, which the code only ever compares
  chronologically (and SQLite compares lexicographically, which agrees),
  are modelled as rationals measured in hours.
* The md5 cache fingerprint of `LeadCollector._get_cache_key` is modelled
  by the normalized string itself (md5 is treated as injective).
* A SQL table is a list of rows; `INSERT`, `UPDATE ... WHERE` and
  `SELECT ... WHERE` are list operations.  The python `sqlite3` connection
  in `create_job` runs both statements in one transaction with a single
  `commit()`, and the exception path returns without committing, so the
  transaction semantics is: either both writes or no state change.
-/

/-- Python whitespace as removed by `str.strip` (string data is ASCII here). -/
def isPySpace (c : Char) : Bool :=
  c = ' ' || c = '\t' || c = '\n' || c = '\r' || c = Char.ofNat 11 || c = Char.ofNat 12

/-- Python `str.strip()`: drop leading and trailing whitespace. -/
def pyStrip (s : String) : String :=
  ⟨((s.data.dropWhile isPySpace).reverse.dropWhile isPySpace).reverse⟩

/-- Python `str.lower()` on the ASCII data this system stores. -/
def lowerStr (s : String) : String :=
  ⟨s.data.map Char.toLower⟩

/-- Control characters removed by `SecurityValidator.sanitize_string`
(the regex class `[\x00-\x1f\x7f-\x9f]`). -/
def isCtlChar (c : Char) : Bool :=
  c.toNat ≤ 31 || (127 ≤ c.toNat && c.toNat ≤ 159)

/-- `SecurityValidator.sanitize_string`: remove control characters,
truncate to `maxLength`, strip surrounding whitespace. -/
def sanitize_string (text : String) (maxLength : Nat) : String :=
  pyStrip ⟨(text.data.filter (fun c => !isCtlChar c)).take maxLength⟩

/-- Character class `[\d\s\-\(\)]` of `PHONE_PATTERN`. -/
def phoneChar (c : Char) : Bool :=
  c.isDigit || isPySpace c || c = '-' || c = '(' || c = ')'

/-- `SecurityValidator.validate_phone`: the stripped phone must match
`^\+?[\d\s\-\(\)]{6,20}$` (an empty phone is rejected first). -/
def validate_phone (phone : String) : Bool :=
  let cs := (pyStrip phone).data
  let cs' := if cs.head? = some '+' then cs.tail else cs
  decide (6 ≤ cs'.length) && decide (cs'.length ≤ 20) && cs'.all phoneChar

/-- Character class `[a-zA-Z0-9._%+-]` of the local part of `EMAIL_PATTERN`. -/
def emailLocalChar (c : Char) : Bool :=
  c.isAlphanum || c = '.' || c = '_' || c = '%' || c = '+' || c = '-'

/-- Character class `[a-zA-Z0-9.-]` of the domain part of `EMAIL_PATTERN`. -/
def emailDomainChar (c : Char) : Bool :=
  c.isAlphanum || c = '.' || c = '-'

/-- Matches `[a-zA-Z0-9.-]+\.[a-zA-Z]{2,}$`: some split at a dot with a
nonempty domain part before it and at least two letters after it. -/
def emailTailOk (cs : List Char) : Bool :=
  (List.range cs.length).any (fun p =>
    decide (1 ≤ p) && decide ((cs.drop p).head? = some '.') &&
      (cs.take p).all emailDomainChar &&
      ((cs.drop (p + 1)).all Char.isAlpha) && decide (2 ≤ cs.length - (p + 1)))

/-- `SecurityValidator.validate_email`: the stripped, lower-cased email must
match `^[a-zA-Z0-9._%+-]+@[a-zA-Z0-9.-]+\.[a-zA-Z]{2,}$`. -/
def validate_email (email : String) : Bool :=
  let cs := (lowerStr (pyStrip email)).data
  match cs.splitOn '@' with
  | [localPart, rest] =>
      decide (localPart ≠ []) && localPart.all emailLocalChar && emailTailOk rest
  | _ => false

/-- `SecurityValidator.validate_coordinates`: both coordinates in range
(the inputs are already numbers in every call site modelled here). -/
def validate_coordinates (lat lon : ℚ) : Bool :=
  decide (-90 ≤ lat ∧ lat ≤ 90 ∧ -180 ≤ lon ∧ lon ≤ 180)

/-- SQLite `LIKE` matching (no ESCAPE clause): `%` matches any sequence,
`_` matches one character, other characters match ASCII case-insensitively.
The `%` case is phrased as: the rest of the pattern matches some suffix. -/
def likeMatch : List Char → List Char → Bool
  | [], s => s.isEmpty
  | p :: ps, s =>
    if p = '%' then s.tails.any (fun t => likeMatch ps t)
    else if p = '_' then
      match s with
      | [] => false
      | _ :: s' => likeMatch ps s'
    else
      match s with
      | [] => false
      | c :: s' => (p.toLower = c.toLower) && likeMatch ps s'

/-- Row of the `leads` table (the columns the modelled operations read). -/
structure LeadRow where
  id : Nat
  name : String
  category : String
  lat : Option ℚ
  lon : Option ℚ
  phone : String
  email : String
  status : String
  created_at : ℚ
  updated_at : Option ℚ
deriving DecidableEq

/-- Row of the `workers` table. -/
structure WorkerRow where
  id : Nat
  name : String
  skills : String
  phone : String
  email : String
  lat : Option ℚ
  lon : Option ℚ
  status : String
  rating : ℚ
  jobs_completed : Nat
  created_at : ℚ
deriving DecidableEq

/-- Row of the `jobs` table. -/
structure JobRow where
  id : Nat
  lead_id : Nat
  worker_id : Nat
  service : String
  price : ℚ
  status : String
  created_at : ℚ
deriving DecidableEq

/-- Row of the `api_cache` table. -/
structure CacheEntry where
  query_hash : String
  response_data : List String
  created_at : ℚ
  expires_at : ℚ
deriving DecidableEq

/-- The persistent store. -/
structure DB where
  leads : List LeadRow
  workers : List WorkerRow
  jobs : List JobRow
  cache : List CacheEntry
deriving DecidableEq

/-- Python truthiness of a nullable REAL column: `None` and `0.0` are falsy. -/
def truthyQ : Option ℚ → Bool
  | none => false
  | some x => decide (x ≠ 0)

/-- Degrees to radians, `math.radians`. -/
noncomputable def radians (x : ℝ) : ℝ := x * (Real.pi / 180)

/-- Python `math.atan2` on real arguments (signed zeros do not arise here). -/
noncomputable def atan2 (y x : ℝ) : ℝ :=
  if 0 < x then Real.arctan (y / x)
  else if x = 0 then
    if 0 < y then Real.pi / 2 else if y < 0 then -(Real.pi / 2) else 0
  else if 0 ≤ y then Real.arctan (y / x) + Real.pi else Real.arctan (y / x) - Real.pi

/-- The intermediate `a` of `haversine_distance`. -/
noncomputable def hav_a (lat1 lon1 lat2 lon2 : ℝ) : ℝ :=
  Real.sin (radians (lat2 - lat1) / 2) ^ 2 +
    Real.cos (radians lat1) * Real.cos (radians lat2) *
      Real.sin (radians (lon2 - lon1) / 2) ^ 2

/-- The intermediate `c` of `haversine_distance` (`math.sqrt` of a negative
number would raise in Python; `Real.sqrt` is total, and the difference is
unreachable for the inputs considered). -/
noncomputable def hav_c (lat1 lon1 lat2 lon2 : ℝ) : ℝ :=
  2 * atan2 (Real.sqrt (hav_a lat1 lon1 lat2 lon2))
      (Real.sqrt (1 - hav_a lat1 lon1 lat2 lon2))

/-- `haversine_distance`: `float('inf')` (modelled `⊤ : EReal`) when any
argument is zero-like (`if not all([lat1, lon1, lat2, lon2])`), otherwise
the great-circle distance with Earth radius 6371 km. -/
noncomputable def haversine_distance (lat1 lon1 lat2 lon2 : ℝ) : EReal :=
  if lat1 = 0 ∨ lon1 = 0 ∨ lat2 = 0 ∨ lon2 = 0 then ⊤
  else ((6371 * hav_c lat1 lon1 lat2 lon2 : ℝ) : EReal)

/-- SQL `ORDER BY rating DESC, jobs_completed DESC` of
`JobMatcher.find_best_worker` as a relation: `a` may come before `b`. -/
def workerOrder (a b : WorkerRow) : Prop :=
  b.rating < a.rating ∨ (a.rating = b.rating ∧ b.jobs_completed ≤ a.jobs_completed)

instance : DecidableRel workerOrder := fun a b => by
  unfold workerOrder; infer_instance

/-- Eligibility filter of `JobMatcher.find_best_worker`:
`status = 'active' AND skills LIKE '%' || lower(service) || '%'`. -/
def eligible_worker (service : String) (w : WorkerRow) : Bool :=
  w.status = "active" && likeMatch ("%" ++ lowerStr service ++ "%").data w.skills.data

/-- The worker rows `JobMatcher.find_best_worker` iterates over: filtered by
`eligible_worker` and sorted by the `ORDER BY` clause. -/
def eligibleWorkers (db : DB) (service : String) : List WorkerRow :=
  List.insertionSort workerOrder (db.workers.filter (eligible_worker service))

/-- Per-worker distance of `JobMatcher.find_best_worker`: the haversine
distance when lead and worker coordinates are all truthy, else the fixed
999 km penalty. -/
noncomputable def worker_distance (lead_lat lead_lon : Option ℚ) (w : WorkerRow) : EReal :=
  if truthyQ w.lat && truthyQ w.lon && truthyQ lead_lat && truthyQ lead_lon then
    haversine_distance ((lead_lat.getD 0 : ℚ) : ℝ) ((lead_lon.getD 0 : ℚ) : ℝ)
      ((w.lat.getD 0 : ℚ) : ℝ) ((w.lon.getD 0 : ℚ) : ℝ)
  else (((999 : ℚ) : ℝ) : EReal)

/-- Loop state of `JobMatcher.find_best_worker`: `best_worker` carries the
selected row together with its stored `distance` field; `best_distance`
starts at `float('inf')`. -/
structure BestState where
  best_worker : Option (WorkerRow × EReal)
  best_distance : EReal

/-- One iteration of the selection loop of `JobMatcher.find_best_worker`.
Note the source compares `score < best_distance` and then stores
`best_distance = distance` (the distance, not the score). -/
noncomputable def match_step (lead_lat lead_lon : Option ℚ)
    (st : BestState) (w : WorkerRow) : BestState :=
  let distance := worker_distance lead_lat lead_lon w
  let score := distance - (((w.rating * 2 : ℚ) : ℝ) : EReal)
  if score < st.best_distance then ⟨some (w, distance), distance⟩ else st

/-- `JobMatcher.find_best_worker`: returns `none` both when the lead id is
unknown (the source prints an error) and when no eligible worker exists
(the source prints a warning); otherwise the result of the selection loop. -/
noncomputable def find_best_worker (db : DB) (lead_id : Nat) (service : String) :
    Option (WorkerRow × EReal) :=
  match db.leads.find? (fun l => l.id = lead_id) with
  | none => none
  | some lead =>
    let ws := eligibleWorkers db service
    if ws.isEmpty then none
    else (ws.foldl (match_step lead.lat lead.lon) ⟨none, ⊤⟩).best_worker

/-- Next AUTOINCREMENT id for the `jobs` table. -/
def next_job_id (db : DB) : Nat :=
  (db.jobs.foldl (fun m j => max m j.id) 0) + 1

/-- Next AUTOINCREMENT id for the `workers` table. -/
def next_worker_id (db : DB) : Nat :=
  (db.workers.foldl (fun m w => max m w.id) 0) + 1

/-- `JobMatcher.create_job`: in one transaction, insert a job at status
`dispatched` and update the lead to status `contacted` with a fresh
`updated_at`, then `commit()`.  With `PRAGMA foreign_keys = ON`, the insert
raises `IntegrityError` when the referenced lead or worker does not exist;
the exception path returns `0` without committing, so the store is
unchanged.  Result: the new store and the returned job id (`0` on failure). -/
def create_job (db : DB) (now : ℚ) (lead_id worker_id : Nat)
    (service : String) (price : ℚ) : DB × Nat :=
  if db.leads.any (fun l => l.id = lead_id) && db.workers.any (fun w => w.id = worker_id) then
    let job_id := next_job_id db
    ({ db with
        jobs := db.jobs ++ [⟨job_id, lead_id, worker_id, service, price, "dispatched", now⟩],
        leads := db.leads.map (fun l =>
          if l.id = lead_id then { l with status := "contacted", updated_at := some now } else l) },
      job_id)
  else (db, 0)

/-- The lead rows fetched by `JobMatcher.match_all_leads`:
`SELECT ... WHERE status = 'new' AND category LIKE '%' || service || '%' LIMIT max_matches`. -/
def match_all_leads_selection (db : DB) (service : String) (max_matches : Nat) : List LeadRow :=
  (db.leads.filter (fun l =>
    l.status = "new" && likeMatch ("%" ++ service ++ "%").data l.category.data)).take max_matches

/-- `LeadCollector._get_cache_key`: md5 of `lower(city) ++ ":" ++ lower(query)`,
modelled by the normalized string itself. -/
def cache_key (city query : String) : String :=
  lowerStr city ++ ":" ++ lowerStr query

/-- `LeadCollector._get_cached_results`:
`SELECT response_data FROM api_cache WHERE query_hash = ? AND expires_at > now`. -/
def get_cached_results (cache : List CacheEntry) (key : String) (now : ℚ) :
    Option (List String) :=
  (cache.find? (fun e => e.query_hash = key && decide (now < e.expires_at))).map
    (fun e => e.response_data)

/-- `LeadCollector._cache_results`: `INSERT OR REPLACE` keyed by the
fingerprint, with `expires_at = now + CACHE_DURATION_HOURS` (24 h). -/
def cache_results (cache : List CacheEntry) (key : String) (results : List String)
    (now : ℚ) : List CacheEntry :=
  (cache.filter (fun e => e.query_hash ≠ key)) ++ [⟨key, results, now, now + 24⟩]

/-- Observable outcome of one `LeadCollector.search_nominatim` call. -/
structure SearchOutcome where
  results : List String
  external_call : Bool
  cache : List CacheEntry
deriving DecidableEq

/-- `LeadCollector.search_nominatim`.  `api_response` is the external
provider's answer when a request is issued (`none` models a timeout or
transport failure, which returns `[]` and caches nothing).  The Python
guard `if cached_results:` is list truthiness: `None` and the empty list
both fall through to the external call. -/
def search_nominatim (cache : List CacheEntry) (now : ℚ) (city query : String)
    (api_response : Option (List String)) : SearchOutcome :=
  let city := sanitize_string city 100
  let query := sanitize_string query 100
  if city = "" ∨ query = "" then ⟨[], false, cache⟩
  else
    let key := cache_key city query
    let cached := get_cached_results cache key now
    if cached.getD [] ≠ [] then ⟨cached.getD [], false, cache⟩
    else
      match api_response with
      | some results => ⟨results, true, cache_results cache key results now⟩
      | none => ⟨[], true, cache⟩

/-- `WorkerManager.add_worker`: sanitize, require name and skills, reject a
nonempty invalid phone or email with an error (no write), zero out-of-range
coordinates, insert (`UNIQUE(phone)` failure also writes nothing).
Result: the new store and the success flag. -/
def add_worker (db : DB) (now : ℚ) (name skills phone email : String)
    (lat lon : ℚ) : DB × Bool :=
  let name := sanitize_string name 500
  let skills := sanitize_string (lowerStr skills) 500
  let phone := sanitize_string phone 20
  let email := sanitize_string email 100
  if name = "" ∨ skills = "" then (db, false)
  else if phone ≠ "" ∧ validate_phone phone = false then (db, false)
  else if email ≠ "" ∧ validate_email email = false then (db, false)
  else
    let coords : ℚ × ℚ := if validate_coordinates lat lon then (lat, lon) else (0, 0)
    if db.workers.any (fun w => w.phone = phone) then (db, false)
    else
      ({ db with workers := db.workers ++
          [⟨next_worker_id db, name, skills, phone, email,
            some coords.1, some coords.2, "active", 0, 0, now⟩] },
        true)

/-- One row of `WorkerManager.import_from_csv`: sanitize, skip the row when
name or skills are missing, clear an invalid phone or email instead of
rejecting, zero invalid coordinates, insert (`UNIQUE(phone)` failure skips
the row).  Result: the new store and whether the row was imported. -/
def import_worker_row (db : DB) (now : ℚ) (name skills phone email : String)
    (lat lon : ℚ) : DB × Bool :=
  let name := sanitize_string name 500
  let skills := sanitize_string (lowerStr skills) 500
  let phone := sanitize_string phone 20
  let email := sanitize_string email 100
  if name = "" ∨ skills = "" then (db, false)
  else
    let phone := if phone ≠ "" ∧ validate_phone phone = false then "" else phone
    let email := if email ≠ "" ∧ validate_email email = false then "" else email
    let coords : ℚ × ℚ := if validate_coordinates lat lon then (lat, lon) else (0, 0)
    if db.workers.any (fun w => w.phone = phone) then (db, false)
    else
      ({ db with workers := db.workers ++
          [⟨next_worker_id db, name, skills, phone, email,
            some coords.1, some coords.2, "active", 0, 0, now⟩] },
        true)

/-- Next AUTOINCREMENT id for the `leads` table. -/
def next_lead_id (db : DB) : Nat :=
  (db.leads.foldl (fun m l => max m l.id) 0) + 1

/-- One result item of `LeadCollector.collect_leads` (the lead write path):
sanitize the display name, skip the item when the parsed coordinates are out
of range, clear an invalid phone or email found in the tags instead of
rejecting the item, insert at status `new` (a `UNIQUE(name, lat, lon)`
violation skips the item as a duplicate).  Result: the new store and whether
the lead was added. -/
def collect_lead_item (db : DB) (now : ℚ) (service : String)
    (display_name : String) (lat lon : ℚ) (phone_tag email_tag : String) : DB × Bool :=
  let name := sanitize_string display_name 500
  if validate_coordinates lat lon then
    let phone := sanitize_string phone_tag 20
    let email := sanitize_string email_tag 100
    let phone := if phone ≠ "" ∧ validate_phone phone = false then "" else phone
    let email := if email ≠ "" ∧ validate_email email = false then "" else email
    if db.leads.any (fun l => l.name = name ∧ l.lat = some lat ∧ l.lon = some lon) then
      (db, false)
    else
      ({ db with leads := db.leads ++
          [⟨next_lead_id db, name, service, some lat, some lon, phone, email,
            "new", now, none⟩] },
        true)
  else (db, false)

/-- Shared helper: unfolding `create_job` when the foreign-key check passes. -/
theorem create_job_pos (db : DB) (now : ℚ) (lead_id worker_id : Nat)
    (service : String) (price : ℚ)
    (h1 : ∃ l ∈ db.leads, l.id = lead_id) (h2 : ∃ w ∈ db.workers, w.id = worker_id) :
    create_job db now lead_id worker_id service price =
      ({ db with
          jobs := db.jobs ++
            [⟨next_job_id db, lead_id, worker_id, service, price, "dispatched", now⟩],
          leads := db.leads.map (fun l =>
            if l.id = lead_id then { l with status := "contacted", updated_at := some now }
            else l) },
        next_job_id db) := by
  have hb : (db.leads.any (fun l => l.id = lead_id) &&
      db.workers.any (fun w => w.id = worker_id)) = true := by
    rw [Bool.and_eq_true]
    exact ⟨List.any_eq_true.2 (by simpa using h1), List.any_eq_true.2 (by simpa using h2)⟩
  simp only [create_job]
  rw [if_pos hb]

/-- Shared helper: unfolding `create_job` when the foreign-key check fails. -/
theorem create_job_neg (db : DB) (now : ℚ) (lead_id worker_id : Nat)
    (service : String) (price : ℚ)
    (h : ¬ ((∃ l ∈ db.leads, l.id = lead_id) ∧ ∃ w ∈ db.workers, w.id = worker_id)) :
    create_job db now lead_id worker_id service price = (db, 0) := by
  have hb : ¬ ((db.leads.any (fun l => l.id = lead_id) &&
      db.workers.any (fun w => w.id = worker_id)) = true) := by
    rw [Bool.and_eq_true]
    intro hc
    exact h ⟨by simpa using List.any_eq_true.1 hc.1, by simpa using List.any_eq_true.1 hc.2⟩
  simp only [create_job]
  rw [if_neg hb]

/-- Shared helper: `next_job_id` is never the failure sentinel 0. -/
theorem next_job_id_ne_zero (db : DB) : next_job_id db ≠ 0 :=
  Nat.succ_ne_zero _

/-- C2: `create_job` inserts the job row at status `dispatched` and flips the
referenced lead to `contacted` (with a fresh timestamp) as one transactional
unit: for every initial store, either the call returns a nonzero job id and
both writes are visible, or it returns 0 and the store is unchanged — never
a partial state. -/
theorem create_job_atomic (db : DB) (now : ℚ) (lead_id worker_id : Nat)
    (service : String) (price : ℚ) :
    ((create_job db now lead_id worker_id service price).2 ≠ 0 ∧
      (∃ j ∈ (create_job db now lead_id worker_id service price).1.jobs,
        j.id = (create_job db now lead_id worker_id service price).2 ∧
        j.lead_id = lead_id ∧ j.worker_id = worker_id ∧
        j.status = "dispatched" ∧ j.service = service) ∧
      (∃ l ∈ (create_job db now lead_id worker_id service price).1.leads,
        l.id = lead_id ∧ l.status = "contacted" ∧ l.updated_at = some now)) ∨
    ((create_job db now lead_id worker_id service price).2 = 0 ∧
      (create_job db now lead_id worker_id service price).1 = db) := by
  by_cases h : (∃ l ∈ db.leads, l.id = lead_id) ∧ ∃ w ∈ db.workers, w.id = worker_id
  · left
    rw [create_job_pos db now lead_id worker_id service price h.1 h.2]
    refine ⟨next_job_id_ne_zero db, ?_, ?_⟩
    · exact ⟨⟨next_job_id db, lead_id, worker_id, service, price, "dispatched", now⟩,
        by simp, rfl, rfl, rfl, rfl, rfl⟩
    · obtain ⟨l, hl, hid⟩ := h.1
      refine ⟨{ l with status := "contacted", updated_at := some now },
        List.mem_map.2 ⟨l, hl, by rw [if_pos hid]⟩, by simpa using hid, rfl, rfl⟩
  · right
    rw [create_job_neg db now lead_id worker_id service price h]
    exact ⟨rfl, rfl⟩

/-- C10: `create_job` checks no precondition on the lead's current status —
for any existing lead (whatever its status, e.g. `converted`) and existing
worker, the call succeeds and every lead row with that id ends at status
`contacted`. -/
theorem create_job_ignores_prior_status (db : DB) (now : ℚ) (lead_id worker_id : Nat)
    (service : String) (price : ℚ) (l : LeadRow)
    (hl : l ∈ db.leads) (hid : l.id = lead_id)
    (hw : ∃ w ∈ db.workers, w.id = worker_id) :
    (create_job db now lead_id worker_id service price).2 ≠ 0 ∧
      ∀ l' ∈ (create_job db now lead_id worker_id service price).1.leads,
        l'.id = lead_id → l'.status = "contacted" := by
  rw [create_job_pos db now lead_id worker_id service price ⟨l, hl, hid⟩ hw]
  refine ⟨next_job_id_ne_zero db, ?_⟩
  intro l' hl' hid'
  obtain ⟨a, _, rfl⟩ := List.mem_map.1 hl'
  by_cases ha : a.id = lead_id
  · rw [if_pos ha]
  · rw [if_neg ha] at hid' ⊢
    exact absurd hid' ha

/-- Test fixture: a lead already at status `converted`. -/
def leadConv : LeadRow :=
  ⟨1, "Cafe", "plumbing", some 19, some 72, "", "", "converted", 0, none⟩

/-- Test fixture: an active plumbing worker. -/
def workerW : WorkerRow :=
  ⟨5, "Wilma", "plumbing", "123456", "", some 19, some 72, "active", 4, 2, 0⟩

/-- Test fixture store for the `create_job` status-overwrite check. -/
def dbConv : DB := ⟨[leadConv], [workerW], [], []⟩

/-- Witness for C10 at a concrete store: the lead starts at `converted`,
`create_job` succeeds and forces it to `contacted`. -/
theorem create_job_ignores_prior_status_witness :
    (leadConv ∈ dbConv.leads ∧ leadConv.id = 1 ∧
      (∃ w ∈ dbConv.workers, w.id = 5) ∧ leadConv.status = "converted") ∧
    (create_job dbConv 0 1 5 "plumbing" 0).2 ≠ 0 ∧
      ∀ l' ∈ (create_job dbConv 0 1 5 "plumbing" 0).1.leads,
        l'.id = 1 → l'.status = "contacted" :=
  ⟨⟨by decide, rfl, ⟨workerW, by decide, rfl⟩, rfl⟩,
    create_job_ignores_prior_status dbConv 0 1 5 "plumbing" 0 leadConv
      (by decide) rfl ⟨workerW, by decide, rfl⟩⟩

/-- C8: every lead fetched by `match_all_leads` has status `new`; a lead at
status `contacted` is never fetched (for any store, service and limit, hence
for every subsequent invocation until the status is reset). -/
theorem match_all_leads_only_new (db : DB) (service : String) (max_matches : Nat) :
    (∀ l ∈ match_all_leads_selection db service max_matches, l.status = "new") ∧
    (∀ l, l.status = "contacted" →
      l ∉ match_all_leads_selection db service max_matches) := by
  have key : ∀ l ∈ match_all_leads_selection db service max_matches, l.status = "new" := by
    intro l hl
    have hf := List.mem_filter.1 (List.take_subset _ _ hl)
    have := hf.2
    rw [Bool.and_eq_true] at this
    exact of_decide_eq_true this.1
  refine ⟨key, ?_⟩
  intro l hs hmem
  have := key l hmem
  rw [this] at hs
  exact absurd hs (by decide)

/-- Test fixture: a fresh lead in the `plumbing` category. -/
def leadNew : LeadRow :=
  ⟨2, "Shop", "plumbing repair", some 1, some 1, "", "", "new", 0, none⟩

/-- Test fixture: a lead already contacted. -/
def leadCont : LeadRow :=
  ⟨3, "Bar", "plumbing", some 1, some 1, "", "", "contacted", 0, none⟩

/-- Test fixture store for the `match_all_leads` selection check. -/
def dbNewCont : DB := ⟨[leadNew, leadCont], [], [], []⟩

/-- Witness for C8 at a concrete store: the `new` lead is fetched, the
`contacted` one is not. -/
theorem match_all_leads_only_new_witness :
    (leadNew ∈ match_all_leads_selection dbNewCont "plumbing" 50 ∧
      leadNew.status = "new") ∧
    leadCont ∉ match_all_leads_selection dbNewCont "plumbing" 50 :=
  ⟨⟨by decide, (match_all_leads_only_new dbNewCont "plumbing" 50).1 leadNew (by decide)⟩,
    (match_all_leads_only_new dbNewCont "plumbing" 50).2 leadCont rfl⟩

/-- Test fixture: the empty store. -/
def dbEmpty : DB := ⟨[], [], [], []⟩

/-- Counterexample to C7 as stated: `add_worker` is a store write path on
which an invalid phone does fail the whole write — the phone is not cleared,
nothing is inserted, and the call reports failure. -/
theorem add_worker_rejects_invalid_phone :
    validate_phone "12ab34" = false ∧
      add_worker dbEmpty 0 "Bob" "plumbing" "12ab34" "" 1 1 = (dbEmpty, false) := by
  constructor
  · decide
  · decide

/-- C7 (amended): on the lead-collection and CSV-import write paths a phone
or email failing format validation is silently cleared to the empty string
and the write still proceeds with the remaining fields; on the `add_worker`
path an invalid nonempty phone — or an invalid nonempty email when the phone
passes — instead fails the whole write, leaving the store unchanged. -/
theorem invalid_contact_cleared_on_bulk_paths (db : DB) (now : ℚ)
    (service name skills phone phone2 email : String) (lat lon : ℚ)
    (hname : sanitize_string name 500 ≠ "")
    (hskills : sanitize_string (lowerStr skills) 500 ≠ "")
    (hphone : sanitize_string phone 20 ≠ "")
    (hbadp : validate_phone (sanitize_string phone 20) = false)
    (hemail : sanitize_string email 100 ≠ "")
    (hbade : validate_email (sanitize_string email 100) = false)
    (hphone2 : sanitize_string phone2 20 = "" ∨
      validate_phone (sanitize_string phone2 20) = true)
    (hnodupw : ∀ w ∈ db.workers, w.phone ≠ "")
    (hcoords : validate_coordinates lat lon = true)
    (hnodupl : ∀ l ∈ db.leads,
      ¬ (l.name = sanitize_string name 500 ∧ l.lat = some lat ∧ l.lon = some lon)) :
    ((collect_lead_item db now service name lat lon phone email).2 = true ∧
      (∃ l ∈ (collect_lead_item db now service name lat lon phone email).1.leads,
        l.name = sanitize_string name 500 ∧ l.phone = "" ∧ l.email = "")) ∧
    ((import_worker_row db now name skills phone email lat lon).2 = true ∧
      (∃ w ∈ (import_worker_row db now name skills phone email lat lon).1.workers,
        w.name = sanitize_string name 500 ∧ w.phone = "" ∧ w.email = "")) ∧
    add_worker db now name skills phone email lat lon = (db, false) ∧
    add_worker db now name skills phone2 email lat lon = (db, false) := by
  have hdupw : (db.workers.any (fun w => w.phone = "")) = false := by
    rw [List.any_eq_false]
    intro w hw
    simpa using hnodupw w hw
  have hdupl : (db.leads.any (fun l => l.name = sanitize_string name 500 ∧
      l.lat = some lat ∧ l.lon = some lon)) = false := by
    rw [List.any_eq_false]
    intro l hl
    simpa using hnodupl l hl
  have hcond : ¬ (sanitize_string name 500 = "" ∨
      sanitize_string (lowerStr skills) 500 = "") := by
    push_neg
    exact ⟨hname, hskills⟩
  have hpc : (sanitize_string phone 20 ≠ "" ∧
      validate_phone (sanitize_string phone 20) = false) := ⟨hphone, hbadp⟩
  have hec : (sanitize_string email 100 ≠ "" ∧
      validate_email (sanitize_string email 100) = false) := ⟨hemail, hbade⟩
  have hcollect : collect_lead_item db now service name lat lon phone email =
      ({ db with leads := db.leads ++
          [⟨next_lead_id db, sanitize_string name 500, service, some lat, some lon,
            "", "", "new", now, none⟩] },
        true) := by
    simp only [collect_lead_item]
    rw [if_pos hcoords, if_pos hpc, if_pos hec, hdupl]
    simp
  have himport : import_worker_row db now name skills phone email lat lon =
      ({ db with workers := db.workers ++
          [⟨next_worker_id db, sanitize_string name 500,
            sanitize_string (lowerStr skills) 500, "", "",
            some lat, some lon, "active", 0, 0, now⟩] },
        true) := by
    simp only [import_worker_row]
    rw [if_neg hcond, if_pos hpc, if_pos hec, if_pos hcoords, hdupw]
    simp
  refine ⟨⟨?_, ?_⟩, ⟨?_, ?_⟩, ?_, ?_⟩
  · rw [hcollect]
  · rw [hcollect]
    exact ⟨_, List.mem_append_right _ (List.mem_singleton_self _), rfl, rfl, rfl⟩
  · rw [himport]
  · rw [himport]
    exact ⟨_, List.mem_append_right _ (List.mem_singleton_self _), rfl, rfl, rfl⟩
  · simp only [add_worker]
    rw [if_neg hcond, if_pos hpc]
  · simp only [add_worker]
    rw [if_neg hcond]
    have hp2 : ¬ (sanitize_string phone2 20 ≠ "" ∧
        validate_phone (sanitize_string phone2 20) = false) := by
      rcases hphone2 with h | h
      · intro hc
        exact hc.1 h
      · intro hc
        rw [h] at hc
        simp at hc
    rw [if_neg hp2, if_pos hec]

/-- Witness for the amended C7 at concrete data: the collected lead and the
imported worker row with phone `12ab34` and email `bad-email` are inserted
with both fields cleared, while `add_worker` fails on the invalid phone and
also fails on the invalid email when the phone is empty. -/
theorem invalid_contact_cleared_on_bulk_paths_witness :
    (sanitize_string "Bob" 500 ≠ "" ∧ sanitize_string (lowerStr "Plumbing") 500 ≠ "" ∧
      sanitize_string "12ab34" 20 ≠ "" ∧
      validate_phone (sanitize_string "12ab34" 20) = false ∧
      sanitize_string "bad-email" 100 ≠ "" ∧
      validate_email (sanitize_string "bad-email" 100) = false ∧
      (sanitize_string "" 20 = "" ∨ validate_phone (sanitize_string "" 20) = true) ∧
      (∀ w ∈ dbEmpty.workers, w.phone ≠ "") ∧
      validate_coordinates 1 1 = true ∧
      ∀ l ∈ dbEmpty.leads,
        ¬ (l.name = sanitize_string "Bob" 500 ∧ l.lat = some 1 ∧ l.lon = some 1)) ∧
    ((collect_lead_item dbEmpty 0 "plumbing" "Bob" 1 1 "12ab34" "bad-email").2 = true ∧
      (∃ l ∈ (collect_lead_item dbEmpty 0 "plumbing" "Bob" 1 1 "12ab34" "bad-email").1.leads,
        l.name = sanitize_string "Bob" 500 ∧ l.phone = "" ∧ l.email = "")) ∧
    ((import_worker_row dbEmpty 0 "Bob" "Plumbing" "12ab34" "bad-email" 1 1).2 = true ∧
      (∃ w ∈ (import_worker_row dbEmpty 0 "Bob" "Plumbing" "12ab34" "bad-email" 1 1).1.workers,
        w.name = sanitize_string "Bob" 500 ∧ w.phone = "" ∧ w.email = "")) ∧
    add_worker dbEmpty 0 "Bob" "Plumbing" "12ab34" "bad-email" 1 1 = (dbEmpty, false) ∧
    add_worker dbEmpty 0 "Bob" "Plumbing" "" "bad-email" 1 1 = (dbEmpty, false) :=
  ⟨⟨by decide, by decide, by decide, by decide, by decide, by decide, by decide,
      by decide, by decide, by decide⟩,
    invalid_contact_cleared_on_bulk_paths dbEmpty 0 "plumbing" "Bob" "Plumbing"
      "12ab34" "" "bad-email" 1 1 (by decide) (by decide) (by decide) (by decide)
      (by decide) (by decide) (by decide) (by decide) (by decide) (by decide)⟩

/-- Test fixture: a store whose only content is a worker (no lead rows). -/
def dbNoLead : DB := ⟨[], [workerW], [], []⟩

/-- Test fixture: a store with one fresh lead and no workers. -/
def dbNoWorker : DB := ⟨[leadNew], [], [], []⟩

/-- Counterexample to C6 as stated: the unknown-lead outcome and the
no-eligible-worker outcome produce the very same returned value (`None`),
so a caller cannot distinguish them by the returned value.  (`dbNoLead` has
no lead with id 2; `dbNoWorker` has lead 2 but no workers at all.) -/
theorem find_best_worker_return_indistinguishable :
    find_best_worker dbNoLead 2 "plumbing" = none ∧
      find_best_worker dbNoWorker 2 "plumbing" = none :=
  ⟨rfl, rfl⟩

/-- C6 (amended): an unknown lead id makes `find_best_worker` return `None`,
which is the same returned value as the normal no-eligible-worker outcome;
the two cases differ only in the printed diagnostic (an error for the
missing lead, a warning for the empty worker list), not in the value. -/
theorem find_best_worker_none_amended (db : DB) (lead_id : Nat) (service : String)
    (h : db.leads.find? (fun l => l.id = lead_id) = none ∨
      ∃ lead, db.leads.find? (fun l => l.id = lead_id) = some lead ∧
        eligibleWorkers db service = []) :
    find_best_worker db lead_id service = none := by
  rcases h with h | ⟨lead, hf, he⟩
  · simp [find_best_worker, h]
  · simp [find_best_worker, hf, he]

/-- Witness for the amended C6 at a concrete store with no matching lead. -/
theorem find_best_worker_none_amended_witness :
    (dbNoLead.leads.find? (fun l => l.id = 2) = none ∨
      ∃ lead, dbNoLead.leads.find? (fun l => l.id = 2) = some lead ∧
        eligibleWorkers dbNoLead "plumbing" = []) ∧
      find_best_worker dbNoLead 2 "plumbing" = none :=
  ⟨Or.inl rfl, find_best_worker_none_amended dbNoLead 2 "plumbing" (Or.inl rfl)⟩

/-- Test fixture: a cache holding a live entry whose cached response is the
empty result list (written at time 0, expiring at 24). -/
def cacheEmptyHit : List CacheEntry := [⟨cache_key "mumbai" "hotel", [], 0, 24⟩]

/-- Counterexample to C3 as stated: the empty response list was cached and
the entry is still live at time 1 (well before T + 24 h), yet the repeated
lookup is not answered from the cache — `if cached_results:` treats the
empty list as a miss and a new external call is made. -/
theorem empty_cached_result_does_not_short_circuit :
    get_cached_results cacheEmptyHit
        (cache_key (sanitize_string "mumbai" 100) (sanitize_string "hotel" 100)) 1 = some [] ∧
      (search_nominatim cacheEmptyHit 1 "mumbai" "hotel" (some ["fresh"])).external_call = true := by
  constructor
  · decide
  · decide

/-- C3 (amended): a successful lookup response is cached with a 24 h TTL
regardless of its size (including the empty list), but only a live cache
entry with a nonempty response list short-circuits the external call; a
lookup on or after expiry triggers a fresh external call (and so does a live
entry holding the empty list, per the counterexample). -/
theorem search_nominatim_cache_amended (city query : String) (T now now2 : ℚ)
    (rs rs2 : List String) (api api2 : Option (List String))
    (hc : sanitize_string city 100 ≠ "") (hq : sanitize_string query 100 ≠ "")
    (hne : rs ≠ []) (hlive : now < T + 24) (hexp : T + 24 ≤ now2) :
    (search_nominatim
        [⟨cache_key (sanitize_string city 100) (sanitize_string query 100), rs, T, T + 24⟩]
        now city query api
      = ⟨rs, false,
          [⟨cache_key (sanitize_string city 100) (sanitize_string query 100), rs, T, T + 24⟩]⟩) ∧
    ((search_nominatim
        [⟨cache_key (sanitize_string city 100) (sanitize_string query 100), rs, T, T + 24⟩]
        now2 city query api2).external_call = true) ∧
    ((search_nominatim [] now city query (some rs2)).cache =
      [⟨cache_key (sanitize_string city 100) (sanitize_string query 100), rs2, now, now + 24⟩]) := by
  have hcq : ¬ (sanitize_string city 100 = "" ∨ sanitize_string query 100 = "") := by
    push_neg
    exact ⟨hc, hq⟩
  refine ⟨?_, ?_, ?_⟩
  · simp only [search_nominatim]
    rw [if_neg hcq]
    have hgc : get_cached_results
        [⟨cache_key (sanitize_string city 100) (sanitize_string query 100), rs, T, T + 24⟩]
        (cache_key (sanitize_string city 100) (sanitize_string query 100)) now = some rs := by
      simp [get_cached_results, List.find?, hlive]
    rw [hgc]
    simp only [Option.getD_some]
    rw [if_pos hne]
  · simp only [search_nominatim]
    rw [if_neg hcq]
    have hgc : get_cached_results
        [⟨cache_key (sanitize_string city 100) (sanitize_string query 100), rs, T, T + 24⟩]
        (cache_key (sanitize_string city 100) (sanitize_string query 100)) now2 = none := by
      simp [get_cached_results, List.find?, not_lt.2 hexp]
    rw [hgc]
    simp only [Option.getD_none, ne_eq, not_true_eq_false, if_false]
    cases api2 <;> rfl
  · simp only [search_nominatim]
    rw [if_neg hcq]
    simp [get_cached_results, cache_results]

/-- Witness for the amended C3 at concrete data: a nonempty response cached
at T = 0 is served from the cache at T + 1 h with no external call, a lookup
at T + 25 h makes an external call, and a fresh success is cached with a
24 h TTL. -/
theorem search_nominatim_cache_amended_witness :
    (sanitize_string "Mumbai" 100 ≠ "" ∧ sanitize_string "Hotel" 100 ≠ "" ∧
      (["taj"] : List String) ≠ [] ∧ (1 : ℚ) < 0 + 24 ∧ (0 : ℚ) + 24 ≤ 25) ∧
    (search_nominatim
        [⟨cache_key (sanitize_string "Mumbai" 100) (sanitize_string "Hotel" 100), ["taj"], 0, 0 + 24⟩]
        1 "Mumbai" "Hotel" (some ["x"])
      = ⟨["taj"], false,
          [⟨cache_key (sanitize_string "Mumbai" 100) (sanitize_string "Hotel" 100), ["taj"], 0, 0 + 24⟩]⟩) ∧
    ((search_nominatim
        [⟨cache_key (sanitize_string "Mumbai" 100) (sanitize_string "Hotel" 100), ["taj"], 0, 0 + 24⟩]
        25 "Mumbai" "Hotel" (some ["x"])).external_call = true) ∧
    ((search_nominatim [] 1 "Mumbai" "Hotel" (some [])).cache =
      [⟨cache_key (sanitize_string "Mumbai" 100) (sanitize_string "Hotel" 100), [], 1, 1 + 24⟩]) :=
  ⟨⟨by decide, by decide, by decide, by norm_num, by norm_num⟩,
    search_nominatim_cache_amended "Mumbai" "Hotel" 0 1 25 ["taj"] [] (some ["x"]) (some ["x"])
      (by decide) (by decide) (by decide) (by norm_num) (by norm_num)⟩

/-- Shared helper: when the truthiness guard of the per-worker distance
fails, the fixed 999 km penalty is used. -/
theorem worker_distance_untruthy (lead_lat lead_lon : Option ℚ) (w : WorkerRow)
    (h : (truthyQ w.lat && truthyQ w.lon && truthyQ lead_lat && truthyQ lead_lon) = false) :
    worker_distance lead_lat lead_lon w = (((999 : ℚ) : ℝ) : EReal) := by
  simp only [worker_distance, h]
  rfl

/-- C4: whenever the lead's coordinates are (0,0) or absent — and likewise
when the worker's are — the distance `find_best_worker` scores that worker
with is exactly the fixed 999 km penalty, for every worker and whatever the
haversine formula would have computed. -/
theorem worker_distance_penalty (lead_lat lead_lon : Option ℚ) (w : WorkerRow)
    (h : (lead_lat = some 0 ∧ lead_lon = some 0) ∨ (lead_lat = none ∧ lead_lon = none) ∨
      (w.lat = some 0 ∧ w.lon = some 0) ∨ (w.lat = none ∧ w.lon = none)) :
    worker_distance lead_lat lead_lon w = (((999 : ℚ) : ℝ) : EReal) := by
  apply worker_distance_untruthy
  rcases h with ⟨h1, h2⟩ | ⟨h1, h2⟩ | ⟨h1, h2⟩ | ⟨h1, h2⟩ <;> simp [h1, h2, truthyQ]

/-- Test fixture: an active worker with no stored coordinates. -/
def workerNoCoords : WorkerRow :=
  ⟨7, "Nyx", "plumbing", "777777", "", none, none, "active", 3, 1, 0⟩

/-- Witness for C4 at concrete data: a (0,0) lead against a coordinate-less
worker is scored with the 999 km penalty. -/
theorem worker_distance_penalty_witness :
    ((some (0 : ℚ) = some 0 ∧ some (0 : ℚ) = some 0) ∨
      (some (0 : ℚ) = none ∧ some (0 : ℚ) = none) ∨
      (workerNoCoords.lat = some 0 ∧ workerNoCoords.lon = some 0) ∨
      (workerNoCoords.lat = none ∧ workerNoCoords.lon = none)) ∧
    worker_distance (some 0) (some 0) workerNoCoords = (((999 : ℚ) : ℝ) : EReal) :=
  ⟨Or.inl ⟨rfl, rfl⟩,
    worker_distance_penalty (some 0) (some 0) workerNoCoords (Or.inl ⟨rfl, rfl⟩)⟩

/-- Shared helper: negating a coordinate difference negates the half-angle. -/
theorem radians_sub_neg (a b : ℝ) : radians (a - b) / 2 = -(radians (b - a) / 2) := by
  unfold radians
  ring

/-- Shared helper: the haversine intermediate `a` is symmetric in the two
coordinate pairs. -/
theorem hav_a_symm (a b c d : ℝ) : hav_a a b c d = hav_a c d a b := by
  have h1 : ∀ x y : ℝ, Real.sin (radians (x - y) / 2) ^ 2 =
      Real.sin (radians (y - x) / 2) ^ 2 := by
    intro x y
    rw [radians_sub_neg x y, Real.sin_neg, neg_sq]
  unfold hav_a
  rw [h1 c a, h1 d b]
  ring

/-- Shared helper: the haversine intermediate `c` is symmetric. -/
theorem hav_c_symm (a b c d : ℝ) : hav_c a b c d = hav_c c d a b := by
  unfold hav_c
  rw [hav_a_symm]

/-- Shared helper: the haversine intermediate `a` vanishes on equal pairs. -/
theorem hav_a_self (x y : ℝ) : hav_a x y x y = 0 := by
  unfold hav_a
  rw [sub_self, sub_self]
  unfold radians
  simp

/-- Shared helper: `atan2 0 1 = 0`. -/
theorem atan2_zero_one : atan2 0 1 = 0 := by
  unfold atan2
  rw [if_pos one_pos]
  simp

/-- Shared helper: the haversine intermediate `c` vanishes on equal pairs. -/
theorem hav_c_self (x y : ℝ) : hav_c x y x y = 0 := by
  unfold hav_c
  rw [hav_a_self]
  simp [atan2_zero_one]

/-- C5 (amended): `haversine_distance` is symmetric for all argument pairs,
and `distance(A,A) = 0` holds for every well-formed coordinate pair `A` both
of whose components are nonzero (a zero component hits the zero-is-unknown
sentinel and yields the infinite distance instead, per the counterexample). -/
theorem haversine_symm_and_self (a b c d lat lon : ℝ)
    (h1 : -90 ≤ lat) (h2 : lat ≤ 90) (h3 : -180 ≤ lon) (h4 : lon ≤ 180)
    (hlat : lat ≠ 0) (hlon : lon ≠ 0) :
    haversine_distance a b c d = haversine_distance c d a b ∧
      haversine_distance lat lon lat lon = 0 := by
  constructor
  · unfold haversine_distance
    by_cases h : a = 0 ∨ b = 0 ∨ c = 0 ∨ d = 0
    · rw [if_pos h, if_pos (by tauto)]
    · rw [if_neg h, if_neg (by tauto), hav_c_symm]
  · unfold haversine_distance
    rw [if_neg (by tauto), hav_c_self]
    norm_num

/-- Counterexample to C5 as stated: the pair (0, 50) is well formed
(latitude 0 is on the equator), yet the self-distance is the infinite
sentinel, not 0, because any zero component triggers the
`if not all([...])` guard. -/
theorem haversine_self_zero_lat_counterexample :
    ((-90 : ℝ) ≤ 0 ∧ (0 : ℝ) ≤ 90 ∧ (-180 : ℝ) ≤ 50 ∧ (50 : ℝ) ≤ 180) ∧
      haversine_distance 0 50 0 50 ≠ 0 := by
  refine ⟨by norm_num, ?_⟩
  unfold haversine_distance
  rw [if_pos (Or.inl rfl)]
  exact EReal.zero_ne_top.symm

/-- Witness for the amended C5 at concrete coordinates. -/
theorem haversine_symm_and_self_witness :
    ((-90 : ℝ) ≤ 45 ∧ (45 : ℝ) ≤ 90 ∧ (-180 : ℝ) ≤ 90 ∧ (90 : ℝ) ≤ 180 ∧
      (45 : ℝ) ≠ 0 ∧ (90 : ℝ) ≠ 0) ∧
    haversine_distance 1 2 3 4 = haversine_distance 3 4 1 2 ∧
      haversine_distance 45 90 45 90 = 0 :=
  ⟨by norm_num,
    (haversine_symm_and_self 1 2 3 4 45 90 (by norm_num) (by norm_num) (by norm_num)
      (by norm_num) (by norm_num) (by norm_num)).1,
    (haversine_symm_and_self 1 2 3 4 45 90 (by norm_num) (by norm_num) (by norm_num)
      (by norm_num) (by norm_num) (by norm_num)).2⟩

/-- Test fixture: a fresh lead whose stored coordinates are (0,0). -/
def leadZero : LeadRow := ⟨1, "Lead1", "plumbing", some 0, some 0, "", "", "new", 0, none⟩

/-- Test fixture: a five-star plumbing worker without coordinates. -/
def workerHi : WorkerRow :=
  ⟨1, "Hi", "plumbing", "111111", "", none, none, "active", 5, 0, 0⟩

/-- Test fixture: a one-star plumbing worker without coordinates. -/
def workerLo : WorkerRow :=
  ⟨2, "Lo", "plumbing", "222222", "", none, none, "active", 1, 0, 0⟩

/-- Test fixture store for the selection-loop evaluation. -/
def dbScore : DB := ⟨[leadZero], [workerHi, workerLo], [], []⟩

/-- Shared helper: the candidate list of the score fixture, in the
`ORDER BY rating DESC` iteration order. -/
theorem elig_dbScore : eligibleWorkers dbScore "plumbing" = [workerHi, workerLo] := by
  decide

/-- Shared helper: first loop iteration of the score fixture — the
five-star worker is accepted and `best_distance` becomes its distance. -/
theorem match_step_hi :
    match_step (some 0) (some 0) ⟨none, ⊤⟩ workerHi =
      ⟨some (workerHi, (((999 : ℚ) : ℝ) : EReal)), (((999 : ℚ) : ℝ) : EReal)⟩ := by
  have hd := worker_distance_untruthy (some 0) (some 0) workerHi rfl
  have hlt : (((999 : ℚ) : ℝ) : EReal) - (((workerHi.rating * 2 : ℚ) : ℝ) : EReal) <
      (⊤ : EReal) := by
    rw [← EReal.coe_sub]
    exact EReal.coe_lt_top _
  dsimp only [match_step]
  rw [hd, if_pos hlt]

/-- Shared helper: second loop iteration — the one-star worker's score 997
is compared against the stored distance 999 (not against the previous score
989), so it overwrites the five-star worker. -/
theorem match_step_lo :
    match_step (some 0) (some 0)
        ⟨some (workerHi, (((999 : ℚ) : ℝ) : EReal)), (((999 : ℚ) : ℝ) : EReal)⟩ workerLo =
      ⟨some (workerLo, (((999 : ℚ) : ℝ) : EReal)), (((999 : ℚ) : ℝ) : EReal)⟩ := by
  have hd := worker_distance_untruthy (some 0) (some 0) workerLo rfl
  have hlt : (((999 : ℚ) : ℝ) : EReal) - (((workerLo.rating * 2 : ℚ) : ℝ) : EReal) <
      (((999 : ℚ) : ℝ) : EReal) := by
    rw [← EReal.coe_sub, EReal.coe_lt_coe_iff]
    have hr : workerLo.rating = 1 := rfl
    rw [hr]
    push_cast
    norm_num
  dsimp only [match_step]
  rw [hd, if_pos hlt]

/-- C1 evaluated at the failing input: both plumbing workers are eligible and
the five-star worker's score (999 − 10 = 989) is strictly below the one-star
worker's (999 − 2 = 997), yet `find_best_worker` returns the one-star worker
— the loop compares each score against the previously accepted worker's
stored distance instead of its score, so the minimum-score worker loses. -/
theorem find_best_worker_not_min_score :
    find_best_worker dbScore 1 "plumbing" =
        some (workerLo, (((999 : ℚ) : ℝ) : EReal)) ∧
      workerHi ∈ eligibleWorkers dbScore "plumbing" ∧
      workerLo ∈ eligibleWorkers dbScore "plumbing" ∧
      worker_distance leadZero.lat leadZero.lon workerHi -
          (((workerHi.rating * 2 : ℚ) : ℝ) : EReal) <
        worker_distance leadZero.lat leadZero.lon workerLo -
          (((workerLo.rating * 2 : ℚ) : ℝ) : EReal) := by
  have hfind : dbScore.leads.find? (fun l => l.id = 1) = some leadZero := by decide
  refine ⟨?_, ?_, ?_, ?_⟩
  · simp only [find_best_worker]
    rw [hfind]
    simp only [elig_dbScore, List.isEmpty_cons, Bool.false_eq_true, if_false,
      List.foldl_cons, List.foldl_nil]
    have hlatlon : leadZero.lat = some 0 ∧ leadZero.lon = some 0 := ⟨rfl, rfl⟩
    rw [hlatlon.1, hlatlon.2, match_step_hi, match_step_lo]
  · rw [elig_dbScore]
    exact List.mem_cons_self _ _
  · rw [elig_dbScore]
    exact List.mem_cons_of_mem _ (List.mem_cons_self _ _)
  · rw [worker_distance_untruthy leadZero.lat leadZero.lon workerHi rfl,
      worker_distance_untruthy leadZero.lat leadZero.lon workerLo rfl,
      ← EReal.coe_sub, ← EReal.coe_sub, EReal.coe_lt_coe_iff]
    have h1 : workerHi.rating = 5 := rfl
    have h2 : workerLo.rating = 1 := rfl
    rw [h1, h2]
    push_cast
    norm_num

/-- Shared helper: decoding `Char.ofNat` at a valid code point. -/
theorem char_toNat_ofNat (n : Nat) (h : n.isValidChar) : (Char.ofNat n).toNat = n := by
  rw [Char.ofNat, dif_pos h]
  rfl

/-- Shared helper: `Char.toLower` on a non-uppercase character is the
identity. -/
theorem toLower_eq_of_not_upper (c : Char) (h : ¬ (65 ≤ c.toNat ∧ c.toNat ≤ 90)) :
    Char.toLower c = c := by
  unfold Char.toLower
  rw [if_neg h]

/-- Shared helper: the code point of `Char.toLower`. -/
theorem toLower_toNat (c : Char) :
    (Char.toLower c).toNat =
      if 65 ≤ c.toNat ∧ c.toNat ≤ 90 then c.toNat + 32 else c.toNat := by
  by_cases h : 65 ≤ c.toNat ∧ c.toNat ≤ 90
  · rw [if_pos h]
    unfold Char.toLower
    rw [if_pos h, char_toNat_ofNat]
    exact Or.inl (by omega)
  · rw [if_neg h, toLower_eq_of_not_upper c h]

/-- Shared helper: `Char.toLower` is idempotent. -/
theorem toLower_idem (c : Char) : Char.toLower (Char.toLower c) = Char.toLower c := by
  apply toLower_eq_of_not_upper
  rw [toLower_toNat]
  by_cases h : 65 ≤ c.toNat ∧ c.toNat ≤ 90
  · rw [if_pos h]
    omega
  · rw [if_neg h]
    exact h

/-- Shared helper: lower-casing cannot produce a character outside the
lowercase-letter range, such as a LIKE wildcard. -/
theorem toLower_ne (c d : Char) (hcd : c ≠ d)
    (hd : ¬ (97 ≤ d.toNat ∧ d.toNat ≤ 122)) : Char.toLower c ≠ d := by
  by_cases h : 65 ≤ c.toNat ∧ c.toNat ≤ 90
  · intro he
    apply hd
    have hn : (Char.toLower c).toNat = c.toNat + 32 := by
      rw [toLower_toNat, if_pos h]
    rw [he] at hn
    omega
  · rw [toLower_eq_of_not_upper c h]
    exact hcd

/-- Shared helper: mapping `Char.toLower` twice is mapping it once. -/
theorem map_toLower_idem (l : List Char) :
    (l.map Char.toLower).map Char.toLower = l.map Char.toLower := by
  rw [List.map_map]
  apply List.map_congr_left
  intro c _
  exact toLower_idem c

/-- Shared helper: unfolding `likeMatch` at a leading `%`. -/
theorem likeMatch_percent (ps s : List Char) :
    likeMatch ('%' :: ps) s = s.tails.any (fun t => likeMatch ps t) := by
  rw [likeMatch.eq_def]
  dsimp only
  rw [if_pos rfl]

/-- Shared helper: a literal pattern character never matches the empty
string. -/
theorem likeMatch_lit_nil (p : List Char) (c : Char) (hp : c ≠ '%') (hu : c ≠ '_') :
    likeMatch (c :: p) [] = false := by
  rw [likeMatch.eq_def]
  dsimp only
  rw [if_neg hp, if_neg hu]

/-- Shared helper: unfolding `likeMatch` at a literal pattern character. -/
theorem likeMatch_lit_cons (p : List Char) (c d : Char) (s : List Char)
    (hp : c ≠ '%') (hu : c ≠ '_') :
    likeMatch (c :: p) (d :: s) =
      (decide (c.toLower = d.toLower) && likeMatch p s) := by
  rw [likeMatch.eq_def]
  dsimp only
  rw [if_neg hp, if_neg hu]

/-- Shared helper: the pattern consisting of a single `%` matches anything. -/
theorem likeMatch_single_percent (s : List Char) : likeMatch ['%'] s = true := by
  rw [likeMatch_percent, List.any_eq_true]
  exact ⟨[], (List.mem_tails _ _).2 List.nil_suffix, rfl⟩

/-- Shared helper: a wildcard-free pattern followed by `%` matches exactly
the strings whose case-folding starts with the pattern's case-folding. -/
theorem likeMatch_lit_percent (q : List Char) (hq : ∀ c ∈ q, c ≠ '%' ∧ c ≠ '_')
    (s : List Char) :
    likeMatch (q ++ ['%']) s = true ↔
      q.map Char.toLower <+: s.map Char.toLower := by
  induction q generalizing s with
  | nil =>
    simp [likeMatch_single_percent]
  | cons c q ih =>
    have hc := hq c (List.mem_cons_self _ _)
    cases s with
    | nil =>
      rw [List.cons_append, likeMatch_lit_nil _ _ hc.1 hc.2]
      simp
    | cons d s' =>
      rw [List.cons_append, likeMatch_lit_cons _ _ _ _ hc.1 hc.2,
        Bool.and_eq_true, decide_eq_true_eq,
        ih (fun x hx => hq x (List.mem_cons_of_mem _ hx)) s']
      simp [List.cons_prefix_cons]

/-- Shared helper: the pattern `%q%` with wildcard-free `q` matches exactly
the strings whose case-folding contains the case-folding of `q`. -/
theorem likeMatch_contains (q : List Char) (hq : ∀ c ∈ q, c ≠ '%' ∧ c ≠ '_')
    (s : List Char) :
    likeMatch ('%' :: (q ++ ['%'])) s = true ↔
      q.map Char.toLower <:+: s.map Char.toLower := by
  rw [likeMatch_percent, List.any_eq_true]
  constructor
  · rintro ⟨t, ht, hm⟩
    have hsuf : t <:+ s := (List.mem_tails _ _).1 ht
    have hpre := (likeMatch_lit_percent q hq t).1 hm
    exact List.infix_iff_prefix_suffix.2 ⟨t.map Char.toLower, hpre, hsuf.map _⟩
  · intro h
    obtain ⟨t', hpre, hsuf⟩ := List.infix_iff_prefix_suffix.1 h
    obtain ⟨u, hu⟩ := hsuf
    have ht : (s.drop u.length).map Char.toLower = t' := by
      calc (s.drop u.length).map Char.toLower
          = (s.map Char.toLower).drop u.length := List.map_drop _ _ _
        _ = (u ++ t').drop u.length := by rw [hu]
        _ = t' := List.drop_left _ _
    refine ⟨s.drop u.length, (List.mem_tails _ _).2 (List.drop_suffix _ _), ?_⟩
    rw [likeMatch_lit_percent q hq, ht]
    exact hpre

/-- C9 (amended): for a service string free of the SQL LIKE wildcards `%`
and `_`, a worker passes the eligibility filter of `find_best_worker`
exactly when its status is `active` and its stored skills string contains
the service string as a case-insensitive substring; a service containing a
wildcard is matched with LIKE semantics instead (see the counterexample). -/
theorem eligible_worker_substring (service : String) (w : WorkerRow)
    (hwild : ∀ c ∈ service.data, c ≠ '%' ∧ c ≠ '_') :
    eligible_worker service w = true ↔
      (w.status = "active" ∧
        service.data.map Char.toLower <:+: w.skills.data.map Char.toLower) := by
  unfold eligible_worker
  rw [Bool.and_eq_true, decide_eq_true_eq]
  have hpat : ("%" ++ lowerStr service ++ "%").data =
      '%' :: (service.data.map Char.toLower ++ ['%']) := by
    rw [String.data_append, String.data_append]
    rfl
  rw [hpat]
  have hq : ∀ c ∈ service.data.map Char.toLower, c ≠ '%' ∧ c ≠ '_' := by
    intro c hc
    obtain ⟨c₀, hc₀, rfl⟩ := List.mem_map.1 hc
    have h₀ := hwild c₀ hc₀
    exact ⟨toLower_ne c₀ '%' h₀.1 (by decide), toLower_ne c₀ '_' h₀.2 (by decide)⟩
  rw [likeMatch_contains _ hq, map_toLower_idem]

/-- Test fixture: an active worker whose skills string is `plumbxng`. -/
def workerWild : WorkerRow :=
  ⟨9, "Wild", "plumbxng", "999999", "", none, none, "active", 0, 0, 0⟩

/-- Test fixture store for the wildcard counterexample. -/
def dbWild : DB := ⟨[], [workerWild], [], []⟩

/-- Counterexample to C9 as stated: for the service string `plumb_ng` the
worker with skills `plumbxng` is in the eligible candidate list of
`find_best_worker` (the `_` is a LIKE single-character wildcard), although
its skills string does not contain the service string as a case-insensitive
substring. -/
theorem skill_filter_wildcard_counterexample :
    workerWild ∈ eligibleWorkers dbWild "plumb_ng" ∧
      ¬ ("plumb_ng".data.map Char.toLower <:+:
          workerWild.skills.data.map Char.toLower) := by
  constructor
  · decide
  · decide

/-- Test fixture: an active worker with mixed-case skills
`Plumbing, Electrical`. -/
def workerSkills : WorkerRow :=
  ⟨4, "Pat", "Plumbing, Electrical", "444444", "", none, none, "active", 0, 0, 0⟩

/-- Witness for the amended C9 at concrete data: `plumbing` and `ELECTRICAL`
are wildcard-free, the equivalence applies, and the worker with skills
`Plumbing, Electrical` is eligible for both. -/
theorem eligible_worker_substring_witness :
    (∀ c ∈ "plumbing".data, c ≠ '%' ∧ c ≠ '_') ∧
    (eligible_worker "plumbing" workerSkills = true ↔
      (workerSkills.status = "active" ∧
        "plumbing".data.map Char.toLower <:+:
          workerSkills.skills.data.map Char.toLower)) ∧
    eligible_worker "plumbing" workerSkills = true ∧
    eligible_worker "ELECTRICAL" workerSkills = true :=
  ⟨by decide, eligible_worker_substring "plumbing" workerSkills (by decide),
    by decide, by decide⟩
